import Mathlib

/-!
Verification of the data-cleaning and query-building logic of the
`magicbox_data_analysis` repository (`script/clean_data.py` and
`script/run_app.py`), as a shallow embedding in Lean 4.

Python scalar cell values are modelled by `PyValue`; regular-expression
calls are modelled by explicit scanning functions with the same semantics
as the concrete patterns used in the source (`:(\d+)` and `\d+`);
DataFrames are modelled as a column list plus a list of rows, each row a
function from column name to value.
-/

set_option autoImplicit false

namespace MagicBox

/-- A Python scalar value as it can appear in a DataFrame cell.
`nan` is the float NaN (detected by `pd.isna`, line 38 of
`clean_data.py`); floats are carried as rationals, since no claim
depends on binary floating-point rounding. -/
inductive PyValue where
  | none : PyValue
  | nan : PyValue
  | int : Int → PyValue
  | float : Rat → PyValue
  | str : String → PyValue
deriving DecidableEq, Repr

/-- A numeric Python value, the non-null results of `clean_price`. -/
inductive PyNum where
  | int : Int → PyNum
  | float : Rat → PyNum
deriving DecidableEq, Repr

/-- Leading run of decimal digits of a character list (the greedy `\d+`
match starting at the head). -/
def takeDigits : List Char → List Char
  | [] => []
  | c :: rest => if c.isDigit then c :: takeDigits rest else []

/-- Value of a decimal digit string, as computed by Python `int` on a
string of digits. -/
def digitsToNat (l : List Char) : Nat :=
  l.foldl (fun acc c => 10 * acc + (c.toNat - 48)) 0

/-- Model of `re.search(r':(\d+)', s)` from `clean_price`
(`clean_data.py` line 47): scan left to right for the first colon that is
immediately followed by a digit, and return the value of the maximal
digit run after that colon. -/
def searchColonNum : List Char → Option Nat
  | [] => Option.none
  | c :: rest =>
    if c = ':' then
      match rest with
      | [] => Option.none
      | d :: _ => if d.isDigit then some (digitsToNat (takeDigits rest)) else searchColonNum rest
    else searchColonNum rest

/-- Model of `re.findall(r'\d+', s)[0]` from `clean_price`
(`clean_data.py` line 51): the value of the first maximal digit run in
the string, if any. -/
def findFirstNum : List Char → Option Nat
  | [] => Option.none
  | c :: rest =>
    if c.isDigit then some (digitsToNat (c :: takeDigits rest)) else findFirstNum rest

/-- Function `clean_price` (`clean_data.py` lines 36-55): null for missing values,
numeric values returned unchanged, strings mined for a `:(\d+)` capture
first and a bare digit run second, null otherwise. -/
def clean_price : PyValue → Option PyNum
  | PyValue.none => Option.none
  | PyValue.nan => Option.none
  | PyValue.int n => some (PyNum.int n)
  | PyValue.float q => some (PyNum.float q)
  | PyValue.str s =>
    match searchColonNum s.toList with
    | some n => some (PyNum.int n)
    | Option.none =>
      match findFirstNum s.toList with
      | some n => some (PyNum.int n)
      | Option.none => Option.none

theorem takeDigits_all_not_digit {l : List Char} (h : ∀ c ∈ l, c.isDigit = false) :
    takeDigits l = [] := by
  cases l with
  | nil => rfl
  | cons c rest =>
    simp only [takeDigits]
    rw [h c (List.mem_cons_self c rest)]
    simp

theorem findFirstNum_of_no_digit {l : List Char} (h : ∀ c ∈ l, c.isDigit = false) :
    findFirstNum l = Option.none := by
  induction l with
  | nil => rfl
  | cons c rest ih =>
    simp only [findFirstNum]
    rw [h c (List.mem_cons_self c rest)]
    simp only [Bool.false_eq_true, if_false]
    exact ih fun x hx => h x (List.mem_cons_of_mem c hx)

theorem searchColonNum_of_no_digit {l : List Char} (h : ∀ c ∈ l, c.isDigit = false) :
    searchColonNum l = Option.none := by
  induction l with
  | nil => rfl
  | cons c rest ih =>
    have hrest : ∀ x ∈ rest, x.isDigit = false := fun x hx => h x (List.mem_cons_of_mem c hx)
    simp only [searchColonNum]
    by_cases hc : c = ':'
    · simp only [hc, if_true]
      cases rest with
      | nil => rfl
      | cons d rest2 =>
        show (if d.isDigit = true then some (digitsToNat (takeDigits (d :: rest2)))
          else searchColonNum (d :: rest2)) = Option.none
        rw [hrest d (List.mem_cons_self d rest2)]
        simp only [Bool.false_eq_true, if_false]
        exact ih hrest
    · simp only [hc, if_false]
      exact ih hrest

/-- C1: `clean_price` behaves as the piecewise definition in the spec:
null for missing input, numeric input unchanged, `label:number` capture
first, then the first digit run, and null for digit-free strings; in
particular `"费用:11" ↦ 11`, `"35元" ↦ 35` and `None ↦ null`. -/
theorem clean_price_piecewise (s : String) (m : Int) (q : Rat) (n k : Nat) :
    clean_price PyValue.none = Option.none ∧
    clean_price PyValue.nan = Option.none ∧
    clean_price (PyValue.int m) = some (PyNum.int m) ∧
    clean_price (PyValue.float q) = some (PyNum.float q) ∧
    (searchColonNum s.toList = some n →
      clean_price (PyValue.str s) = some (PyNum.int n)) ∧
    (searchColonNum s.toList = Option.none → findFirstNum s.toList = some k →
      clean_price (PyValue.str s) = some (PyNum.int k)) ∧
    ((∀ c ∈ s.toList, c.isDigit = false) →
      clean_price (PyValue.str s) = Option.none) ∧
    clean_price (PyValue.str "费用:11") = some (PyNum.int 11) ∧
    clean_price (PyValue.str "35元") = some (PyNum.int 35) := by
  refine ⟨rfl, rfl, rfl, rfl, ?_, ?_, ?_, by decide, by decide⟩
  · intro h
    simp only [clean_price, h]
  · intro h1 h2
    simp only [clean_price, h1, h2]
  · intro h
    simp only [clean_price, searchColonNum_of_no_digit h, findFirstNum_of_no_digit h]

theorem clean_price_piecewise_witness :
    clean_price (PyValue.str "费用:11") = some (PyNum.int 11) ∧
    clean_price (PyValue.str "地下元") = Option.none := by
  have h := clean_price_piecewise "地下元" 0 0 0 0
  exact ⟨(clean_price_piecewise "费用:11" 0 0 0 0).2.2.2.2.2.2.2.1,
    h.2.2.2.2.2.2.1 (by decide)⟩

/-- The invariant claimed by the spec for cleaned prices: null or a
non-negative integer. -/
def cleanedPriceInv (r : Option PyNum) : Prop :=
  r = Option.none ∨ ∃ n : Int, r = some (PyNum.int n) ∧ 0 ≤ n

/-- C2 counterexample: the already-numeric input `-1` is returned
unchanged by `clean_price`, so the output is a negative integer and the
claimed invariant fails. -/
theorem clean_price_inv_counterexample :
    ¬ cleanedPriceInv (clean_price (PyValue.int (-1))) := by
  intro h
  rcases h with h | ⟨n, hn, hge⟩
  · simp [clean_price] at h
  · simp only [clean_price, Option.some.injEq, PyNum.int.injEq] at hn
    omega

/-- C2 amended: for null, NaN and string inputs the output of
`clean_price` is null or a non-negative integer; an already-numeric
input is returned unchanged (in particular `-1 ↦ -1`), so a negative or
non-integer numeric value passes through to the output. -/
theorem clean_price_inv_amended (s : String) (m : Int) (q : Rat) :
    cleanedPriceInv (clean_price PyValue.none) ∧
    cleanedPriceInv (clean_price PyValue.nan) ∧
    cleanedPriceInv (clean_price (PyValue.str s)) ∧
    clean_price (PyValue.int m) = some (PyNum.int m) ∧
    clean_price (PyValue.float q) = some (PyNum.float q) := by
  refine ⟨Or.inl rfl, Or.inl rfl, ?_, rfl, rfl⟩
  simp only [cleanedPriceInv, clean_price]
  cases h1 : searchColonNum s.toList with
  | some n => exact Or.inr ⟨(n : Int), rfl, Int.natCast_nonneg n⟩
  | none =>
    cases h2 : findFirstNum s.toList with
    | some n => exact Or.inr ⟨(n : Int), rfl, Int.natCast_nonneg n⟩
    | none => exact Or.inl rfl

theorem clean_price_inv_amended_witness :
    cleanedPriceInv (clean_price (PyValue.str "35元")) ∧
    clean_price (PyValue.int (-1)) = some (PyNum.int (-1)) := by
  have h := clean_price_inv_amended "35元" (-1) 0
  exact ⟨h.2.2.1, h.2.2.2.1⟩

/-! ### Location-type parsing (`parse_location_type`, `clean_data.py` lines 58-79) -/

/-- Python `str(v)` on a DataFrame cell, as used by
`parse_location_type` before lower-casing. Strings pass through; the
float case is approximated by the rational's decimal text (no claim
depends on non-string addresses); `none`/`nan` are unreachable behind
the `pd.isna` guard. -/
def pyStr : PyValue → String
  | PyValue.str s => s
  | PyValue.int n => toString n
  | PyValue.float q => toString q
  | PyValue.none => "None"
  | PyValue.nan => "nan"

/-- Whether `sub` is a prefix of the second list, the auxiliary step of Python
substring membership. -/
def isPrefixChars : List Char → List Char → Bool
  | [], _ => true
  | _ :: _, [] => false
  | a :: as, b :: bs => a == b && isPrefixChars as bs

/-- Python `sub in s` on strings: `sub` occurs as a contiguous substring
of `s`. -/
def containsSub (sub : List Char) : List Char → Bool
  | [] => isPrefixChars sub []
  | c :: rest => isPrefixChars sub (c :: rest) || containsSub sub rest

/-- The fixed underground keyword list of `parse_location_type`
(`clean_data.py` lines 66-71). -/
def underground_keywords : List String :=
  ["b1", "b2", "b3", "b4",
   "负一", "负二", "负三", "负1", "负2", "负3",
   "地下一", "地下二", "地下三", "地下1", "地下2", "地下3",
   "地下室", "地下"]

/-- Function `parse_location_type` (`clean_data.py` lines 58-79): null for a
missing address, otherwise lower-case the text and return `地下`
(underground) if any keyword occurs as a substring, else `地上`
(above-ground). -/
def parse_location_type (address : PyValue) : PyValue :=
  match address with
  | PyValue.none => PyValue.none
  | PyValue.nan => PyValue.none
  | v =>
    let a := (pyStr v).toList.map Char.toLower
    if underground_keywords.any (fun k => containsSub k.toList a) then PyValue.str "地下"
    else PyValue.str "地上"

/-- C3: an address containing any underground keyword (case-insensitively,
as a substring after lower-casing) is classified `地下`; a non-null
address without such a keyword is classified `地上`; a missing address
gives null; and on strings the result is always one of the two labels,
never null. -/
theorem parse_location_type_spec (a : String) :
    ((∃ k ∈ underground_keywords,
        containsSub k.toList (a.toList.map Char.toLower) = true) →
      parse_location_type (PyValue.str a) = PyValue.str "地下") ∧
    ((∀ k ∈ underground_keywords,
        containsSub k.toList (a.toList.map Char.toLower) = false) →
      parse_location_type (PyValue.str a) = PyValue.str "地上") ∧
    parse_location_type PyValue.none = PyValue.none ∧
    parse_location_type PyValue.nan = PyValue.none ∧
    (parse_location_type (PyValue.str a) = PyValue.str "地下" ∨
      parse_location_type (PyValue.str a) = PyValue.str "地上") := by
  refine ⟨?_, ?_, rfl, rfl, ?_⟩
  · rintro ⟨k, hk, hc⟩
    simp only [parse_location_type, pyStr]
    rw [if_pos (List.any_eq_true.mpr ⟨k, hk, hc⟩)]
  · intro h
    simp only [parse_location_type, pyStr]
    rw [if_neg]
    intro hany
    rcases List.any_eq_true.mp hany with ⟨k, hk, hc⟩
    rw [h k hk] at hc
    exact Bool.false_ne_true hc
  · simp only [parse_location_type, pyStr]
    by_cases hany : underground_keywords.any
        (fun k => containsSub k.toList (a.toList.map Char.toLower)) = true
    · rw [if_pos hany]; exact Or.inl rfl
    · rw [if_neg hany]; exact Or.inr rfl

theorem parse_location_type_spec_witness :
    parse_location_type (PyValue.str "地下一层B1") = PyValue.str "地下" ∧
    parse_location_type (PyValue.str "3楼") = PyValue.str "地上" := by
  refine ⟨(parse_location_type_spec "地下一层B1").1 ⟨"b1", by decide, by decide⟩,
    (parse_location_type_spec "3楼").2.1 ?_⟩
  decide

/-! ### Column type inference (`get_mysql_type`, `clean_data.py` lines
8-33) and the schema actually declared by the store loader (line 136) -/

/-- Inferred scalar kind of a DataFrame column, the `dtype` argument of
`get_mysql_type` as classified by its `np.issubdtype` tests. -/
inductive NpDtype where
  | int64 : NpDtype
  | float64 : NpDtype
  | datetime64 : NpDtype
  | object : NpDtype
deriving DecidableEq, Repr

/-- The fixed column-name overrides of `get_mysql_type`
(`clean_data.py` lines 11-19). -/
def column_type_mapping : List (String × String) :=
  [("价格", "INTEGER"), ("评分", "INTEGER"), ("星级", "INTEGER"),
   ("评论数", "INTEGER"), ("点评数", "INTEGER"),
   ("服务评分", "INTEGER"), ("环境评分", "INTEGER")]

/-- Function `get_mysql_type` (`clean_data.py` lines 8-33): overridden names get
their mapped type, otherwise integer dtypes map to INTEGER, floating to
REAL, datetime and everything else to TEXT. -/
def get_mysql_type (column_name : String) (dtype : NpDtype) : String :=
  match column_type_mapping.lookup column_name with
  | some t => t
  | Option.none =>
    match dtype with
    | NpDtype.int64 => "INTEGER"
    | NpDtype.float64 => "REAL"
    | NpDtype.datetime64 => "TEXT"
    | NpDtype.object => "TEXT"

/-- Declared SQLite column type chosen by pandas `DataFrame.to_sql` for
each dtype (integer → INTEGER, floating → REAL, datetime → TIMESTAMP,
otherwise TEXT). This external-library mapping is the path actually
taken by `init_database` (`clean_data.py` line 136), which hands the
combined frame to `to_sql`; `get_mysql_type` is defined in the source
but never called. -/
def to_sql_type : NpDtype → String
  | NpDtype.int64 => "INTEGER"
  | NpDtype.float64 => "REAL"
  | NpDtype.datetime64 => "TIMESTAMP"
  | NpDtype.object => "TEXT"

/-- The schema of the `dianping_car` table created at
`clean_data.py` line 136: each column of the combined frame with the
type `to_sql` declares for its dtype. -/
def tableSchema (cols : List (String × NpDtype)) : List (String × String) :=
  cols.map fun c => (c.1, to_sql_type c.2)

theorem lookup_eq_none_of_not_mem_keys {l : List (String × String)} {a : String}
    (h : a ∉ l.map Prod.fst) : l.lookup a = Option.none := by
  induction l with
  | nil => rfl
  | cons p rest ih =>
    obtain ⟨k, v⟩ := p
    simp only [List.map_cons, List.mem_cons] at h
    push_neg at h
    obtain ⟨h1, h2⟩ := h
    simp only [List.lookup, beq_eq_false_iff_ne.mpr h1]
    exact ih h2

/-- C4 counterexample: for a floating-point rating column `评分`, the
table created by the store loader declares type REAL (pandas' dtype
mapping), while `get_mysql_type` would return INTEGER — so the declared
schema does not come from the Type Inferrer. -/
theorem table_type_counterexample :
    tableSchema [("评分", NpDtype.float64)] ≠
      [("评分", get_mysql_type "评分" NpDtype.float64)] := by
  decide

/-- C4 amended: the store loader declares, for every column, the
`to_sql` dtype mapping (not `get_mysql_type`, which is never called);
the two agree exactly when the column name is not an overridden numeric
name with a non-integer dtype and the dtype is not datetime. -/
theorem table_type_amended (cols : List (String × NpDtype)) (nm : String) (d : NpDtype) :
    tableSchema cols = cols.map (fun c => (c.1, to_sql_type c.2)) ∧
    (to_sql_type d = get_mysql_type nm d ↔
      ((nm ∈ column_type_mapping.map Prod.fst → d = NpDtype.int64) ∧
        d ≠ NpDtype.datetime64)) := by
  refine ⟨rfl, ?_⟩
  by_cases hm : nm ∈ column_type_mapping.map Prod.fst
  · fin_cases hm <;> cases d <;> decide
  · have hl := lookup_eq_none_of_not_mem_keys hm
    cases d <;> simp [to_sql_type, get_mysql_type, hl, hm]

theorem table_type_amended_witness :
    to_sql_type NpDtype.int64 = get_mysql_type "评分" NpDtype.int64 :=
  (table_type_amended [] "评分" NpDtype.int64).2.mpr (by decide)

/-- C8: `get_mysql_type` returns INTEGER for every name in the fixed
override set regardless of dtype; for any other name it returns INTEGER
for integer dtypes, REAL for floating dtypes, and TEXT for datetime and
all remaining dtypes; and the override set is exactly the price, rating,
star-level and review-count fields. -/
theorem get_mysql_type_spec (nm : String) :
    (∀ k ∈ column_type_mapping.map Prod.fst, ∀ d : NpDtype,
      get_mysql_type k d = "INTEGER") ∧
    (nm ∉ column_type_mapping.map Prod.fst →
      get_mysql_type nm NpDtype.int64 = "INTEGER" ∧
      get_mysql_type nm NpDtype.float64 = "REAL" ∧
      get_mysql_type nm NpDtype.datetime64 = "TEXT" ∧
      get_mysql_type nm NpDtype.object = "TEXT") ∧
    column_type_mapping.map Prod.fst =
      ["价格", "评分", "星级", "评论数", "点评数", "服务评分", "环境评分"] := by
  refine ⟨?_, ?_, rfl⟩
  · intro k hk d
    fin_cases hk <;> cases d <;> rfl
  · intro hm
    have hl := lookup_eq_none_of_not_mem_keys hm
    simp [get_mysql_type, hl]

theorem get_mysql_type_spec_witness :
    get_mysql_type "地址" NpDtype.float64 = "REAL" ∧
    get_mysql_type "价格" NpDtype.float64 = "INTEGER" := by
  have h := get_mysql_type_spec "地址"
  exact ⟨(h.2.1 (by decide)).2.1, h.1 "价格" (by decide) NpDtype.float64⟩

/-! ### Query construction (`run_app.py` lines 337-394 and 602-643) -/

/-- Python `sep.join(parts)`. -/
def pyJoin (sep : String) : List String → String
  | [] => ""
  | [x] => x
  | x :: y :: rest => x ++ sep ++ pyJoin sep (y :: rest)

/-- Model of `','.join(['?' for _ in xs])` (`run_app.py` lines 348 and 353): one
`?` placeholder per selected value. -/
def placeholdersFor (xs : List String) : String :=
  pyJoin "," (xs.map fun _ => "?")

/-- The `conditions` list built on a confirmed search
(`run_app.py` lines 342-355): a city equality fragment, then an IN
fragment per multi-selection, in that order. -/
def searchConditions (cats dists : List String) : List String :=
  ["市 = ?",
   "三类 IN (" ++ placeholdersFor cats ++ ")",
   "区 IN (" ++ placeholdersFor dists ++ ")"]

/-- The bind-parameter list built on a confirmed search
(`run_app.py` lines 345, 350, 355): city first, then the selected
categories, then the selected districts. -/
def search_params (city : String) (cats dists : List String) : List String :=
  ([city] ++ cats) ++ dists

/-- The constant SELECT prefix of the visualization query
(`run_app.py` lines 381-391; column aliases elided). -/
def vizQueryHead : String :=
  "SELECT name, lng, lat, 价格, 评分, 星级, 位置类型 FROM dianping_car WHERE "

/-- The visualization query text (`run_app.py` line 391): the prefix
followed by the conditions joined with AND. -/
def viz_query (cats dists : List String) : String :=
  vizQueryHead ++ pyJoin " AND " (searchConditions cats dists)

theorem placeholdersFor_congr {xs ys : List String} (h : xs.length = ys.length) :
    placeholdersFor xs = placeholdersFor ys := by
  simp only [placeholdersFor, List.map_const', h]

/-- C9: the confirmed-search query is the city equality fragment and the
two IN fragments joined by AND; its text contains only `?` placeholders,
so it is identical for any two selections with the same number of chosen
categories and districts, and the selected literals appear only in the
bind-parameter list, city first, then categories, then districts. -/
theorem viz_query_spec (city1 : String) (cats1 cats2 dists1 dists2 : List String)
    (hc : cats1.length = cats2.length) (hd : dists1.length = dists2.length) :
    viz_query cats1 dists1 = viz_query cats2 dists2 ∧
    search_params city1 cats1 dists1 = city1 :: (cats1 ++ dists1) ∧
    viz_query cats1 dists1 =
      vizQueryHead ++ ("市 = ?" ++ " AND " ++
        (("三类 IN (" ++ placeholdersFor cats1 ++ ")") ++ " AND " ++
          ("区 IN (" ++ placeholdersFor dists1 ++ ")"))) := by
  refine ⟨?_, by simp [search_params], rfl⟩
  simp only [viz_query, searchConditions,
    placeholdersFor_congr hc, placeholdersFor_congr hd]

theorem viz_query_spec_witness :
    viz_query ["美容洗车"] ["朝阳区"] = viz_query ["洗车"] ["海淀区"] ∧
    search_params "北京" ["美容洗车"] ["朝阳区"] = ["北京", "美容洗车", "朝阳区"] := by
  have h := viz_query_spec "北京" ["美容洗车"] ["洗车"] ["朝阳区"] ["海淀区"] rfl rfl
  exact ⟨h.1, h.2.1⟩

/-! ### Pagination (`run_app.py` lines 602-643) -/

/-- Computation `total_pages = (total_records + 99) // 100` (`run_app.py`
line 611). -/
def total_pages (total_records : Nat) : Nat :=
  (total_records + 99) / 100

/-- Computation `offset = (current_page - 1) * 100` (`run_app.py` line 615). -/
def page_offset (current_page : Nat) : Nat :=
  (current_page - 1) * 100

/-- Result of `LIMIT limit OFFSET off` applied to an ordered result
list, the relational engine's semantics for the pagination clause of
`page_query` (`run_app.py` line 639). -/
def sqlLimitOffset {α : Type} (limit off : Nat) (rows : List α) : List α :=
  (rows.drop off).take limit

/-- The rows displayed on page `p`: `LIMIT 100 OFFSET (p - 1) * 100`
over the id-ordered result. -/
def page_rows {α : Type} (rows : List α) (p : Nat) : List α :=
  sqlLimitOffset 100 (page_offset p) rows

/-- The constant SELECT prefix of the paginated table query
(`run_app.py` lines 618-636; the column list elided). -/
def pageSelectHead : String :=
  "SELECT id, name, 一类, 二类, 三类, 价格, 评分, 星级, 评论数, 省, 市, 区, 商圈, 地址, 位置类型 FROM dianping_car "

/-- The paginated table query text (`run_app.py` lines 637-639). -/
def page_query (conditions : List String) : String :=
  pageSelectHead ++
    (if conditions.isEmpty then "" else " WHERE " ++ pyJoin " AND " conditions) ++
    " ORDER BY id LIMIT 100 OFFSET ?"

/-- C10: `total_pages` is the ceiling of `n / 100` (characterized by its
Galois property), the page offset is `(p - 1) * 100`, every displayed
page holds at most 100 rows, and consecutive pages cover disjoint
consecutive ranges of the id-ordered result; the table query carries the
LIMIT/OFFSET clause with a `?` placeholder for the offset. -/
theorem pagination_spec {α : Type} (n p m : Nat) (rows : List α) :
    total_pages n = (n + 99) / 100 ∧
    (total_pages n ≤ m ↔ n ≤ 100 * m) ∧
    page_offset p = (p - 1) * 100 ∧
    (page_rows rows p).length ≤ 100 ∧
    (1 ≤ p →
      page_rows rows p ++ page_rows rows (p + 1) =
        (rows.drop ((p - 1) * 100)).take 200) ∧
    page_query [] = pageSelectHead ++ " ORDER BY id LIMIT 100 OFFSET ?" := by
  refine ⟨rfl, ?_, rfl, ?_, ?_, rfl⟩
  · simp only [total_pages]
    omega
  · simp only [page_rows, sqlLimitOffset]
    exact List.length_take_le 100 _
  · intro hp
    have hoff : page_offset (p + 1) = (p - 1) * 100 + 100 := by
      simp only [page_offset]
      omega
    show (rows.drop (page_offset p)).take 100 ++ (rows.drop (page_offset (p + 1))).take 100 =
      (rows.drop ((p - 1) * 100)).take (100 + 100)
    rw [List.take_add, hoff, ← List.drop_drop 100 ((p - 1) * 100) rows]
    rfl

theorem pagination_spec_witness :
    total_pages 250 ≤ 3 ∧
    page_rows ([10, 20, 30] : List Nat) 1 ++ page_rows ([10, 20, 30] : List Nat) 2 =
      [10, 20, 30] := by
  have h := pagination_spec 250 1 3 ([10, 20, 30] : List Nat)
  exact ⟨h.2.1.mpr (by decide), (h.2.2.2.2.1 (by decide)).trans (by decide)⟩

/-! ### CSV loading (`init_database`, `clean_data.py` lines 82-153) -/

/-- A DataFrame: ordered column names plus rows, each row a total
assignment of a value to every column name. -/
structure Df where
  cols : List String
  rows : List (String → PyValue)

/-- Function `clean_price` as a cell transform: the per-element effect of
`df['价格'].apply(clean_price)` (`clean_data.py` line 106), with a null
result stored back as a missing cell. -/
def cleanPriceCell (v : PyValue) : PyValue :=
  match clean_price v with
  | Option.none => PyValue.none
  | some (PyNum.int n) => PyValue.int n
  | some (PyNum.float q) => PyValue.float q

/-- The per-file cleaning of `init_database` (`clean_data.py` lines
104-114): apply `clean_price` over the 价格 column when present, then
derive the 位置类型 column from 地址 when present (appending the column
if it is new). -/
def cleanDf (df : Df) : Df :=
  let withPrice : Df :=
    if df.cols.contains "价格" then
      { cols := df.cols
        rows := df.rows.map fun r c => if c = "价格" then cleanPriceCell (r c) else r c }
    else df
  if withPrice.cols.contains "地址" then
    { cols :=
        if withPrice.cols.contains "位置类型" then withPrice.cols
        else withPrice.cols ++ ["位置类型"]
      rows := withPrice.rows.map fun r c =>
        if c = "位置类型" then parse_location_type (r "地址") else r c }
  else withPrice

/-- How one read attempt of `pd.read_csv` can fail: a
`UnicodeDecodeError` (caught by the inner handler at `clean_data.py`
line 101) or any other exception (caught only by the outer handler at
line 118). -/
inductive ReadErr where
  | decode : ReadErr
  | other : ReadErr
deriving DecidableEq, Repr

/-- An entry of the data directory: its file name and the outcome of
reading it with each of the two encodings. -/
structure CsvFile where
  name : String
  utf8 : Except ReadErr Df
  gbk : Except ReadErr Df

/-- One file's load attempt (`clean_data.py` lines 97-120): read with
utf-8, retry exactly once with gbk on a decode error, then clean; any
remaining failure skips the file (`none`). -/
def loadFile (f : CsvFile) : Option Df :=
  match f.utf8 with
  | Except.ok df => some (cleanDf df)
  | Except.error ReadErr.decode =>
    match f.gbk with
    | Except.ok df => some (cleanDf df)
    | Except.error _ => Option.none
  | Except.error ReadErr.other => Option.none

def dedupFirstAux (seen : List String) : List String → List String
  | [] => []
  | c :: cs =>
    if seen.contains c then dedupFirstAux seen cs
    else c :: dedupFirstAux (c :: seen) cs

/-- Column names in order of first appearance. -/
def dedupFirst (l : List String) : List String :=
  dedupFirstAux [] l

/-- Model of `pd.concat(dfs, ignore_index=True)` (`clean_data.py` line 126):
columns in order of first appearance, rows concatenated in order of the
input frames. -/
def pdConcat (dfs : List Df) : Df :=
  { cols := dedupFirst (dfs.map Df.cols).flatten
    rows := (dfs.map Df.rows).flatten }

/-- The two fatal outcomes of `init_database`: no CSV file in the
directory (`FileNotFoundError`, line 91) and no file successfully
loaded (`ValueError`, line 123). -/
inductive LoadError where
  | noCsvFiles : LoadError
  | noDataLoaded : LoadError
deriving DecidableEq, Repr

/-- Python `s.endswith(post)`: `post` is a suffix of `s`, checked on the
reversed character lists. -/
def strEndsWith (s post : String) : Bool :=
  isPrefixChars post.toList.reverse s.toList.reverse

/-- Check `f.endswith('.csv')` (`clean_data.py` line 88). -/
def isCsvName (s : String) : Bool :=
  strEndsWith s ".csv"

/-- Function `init_database` (`clean_data.py` lines 82-153) over the entries of
the data directory: filter to CSV names, abort if none, load each file
with the encoding fallback skipping failures, abort if nothing loaded,
otherwise return the concatenated cleaned data. -/
def init_database (files : List CsvFile) : Except LoadError Df :=
  let csv_files := files.filter fun f => isCsvName f.name
  if csv_files.isEmpty then Except.error LoadError.noCsvFiles
  else
    let all_data := csv_files.filterMap loadFile
    if all_data.isEmpty then Except.error LoadError.noDataLoaded
    else Except.ok (pdConcat all_data)

theorem init_database_ok_of_some_load {files : List CsvFile} {g : CsvFile}
    (hg : g ∈ files) (hcsv : isCsvName g.name = true) (hs : (loadFile g).isSome) :
    ∃ d, init_database files = Except.ok d := by
  obtain ⟨d, hd⟩ := Option.isSome_iff_exists.mp hs
  have hmem : g ∈ files.filter fun f => isCsvName f.name :=
    List.mem_filter.mpr ⟨hg, hcsv⟩
  have hne : (files.filter fun f => isCsvName f.name) ≠ [] :=
    List.ne_nil_of_mem hmem
  have hne2 : (files.filter fun f => isCsvName f.name).filterMap loadFile ≠ [] :=
    List.ne_nil_of_mem (List.mem_filterMap.mpr ⟨g, hmem, hd⟩)
  refine ⟨pdConcat ((files.filter fun f => isCsvName f.name).filterMap loadFile), ?_⟩
  simp [init_database, List.isEmpty_iff, hne, hne2]

/-- C5: loading is fatal exactly when the directory holds no CSV file
(descriptive `noCsvFiles` error) or every CSV file fails to load
(`noDataLoaded` error); as soon as one file contributes data,
`init_database` returns the populated store. -/
theorem init_database_fatal_spec (files : List CsvFile) :
    (files.filter (fun f => isCsvName f.name) = [] →
      init_database files = Except.error LoadError.noCsvFiles) ∧
    ((files.filter (fun f => isCsvName f.name) ≠ [] ∧
        ∀ f ∈ files.filter (fun f => isCsvName f.name), loadFile f = Option.none) →
      init_database files = Except.error LoadError.noDataLoaded) ∧
    ((∃ f ∈ files.filter (fun f => isCsvName f.name), (loadFile f).isSome) →
      ∃ df, init_database files = Except.ok df) := by
  refine ⟨?_, ?_, ?_⟩
  · intro h
    simp [init_database, h]
  · rintro ⟨h1, h2⟩
    have hfm : (files.filter (fun f => isCsvName f.name)).filterMap loadFile = [] :=
      List.filterMap_eq_nil_iff.mpr h2
    simp [init_database, List.isEmpty_iff, h1, hfm]
  · rintro ⟨f, hf, hs⟩
    exact init_database_ok_of_some_load (List.mem_filter.mp hf).1
      (List.mem_filter.mp hf).2 hs

/-- A concrete small frame used to instantiate the loader theorems. -/
def dfSampleA : Df :=
  { cols := ["价格", "地址"]
    rows := [fun c => if c = "价格" then PyValue.str "35元" else PyValue.str "B1层"] }

/-- A second concrete frame with the same schema. -/
def dfSampleB : Df :=
  { cols := ["价格", "地址"]
    rows := [fun c => if c = "价格" then PyValue.str "费用:11" else PyValue.str "3楼",
             fun _ => PyValue.none] }

theorem init_database_fatal_spec_witness :
    (init_database [] = Except.error LoadError.noCsvFiles) ∧
    (init_database [⟨"a.csv", Except.error ReadErr.other, Except.error ReadErr.other⟩] =
      Except.error LoadError.noDataLoaded) ∧
    (∃ df, init_database [⟨"a.csv", Except.ok dfSampleA, Except.ok dfSampleA⟩] =
      Except.ok df) := by
  refine ⟨(init_database_fatal_spec []).1 rfl,
    (init_database_fatal_spec [⟨"a.csv", Except.error ReadErr.other, Except.error ReadErr.other⟩]).2.1
      ⟨?_, ?_⟩,
    (init_database_fatal_spec [⟨"a.csv", Except.ok dfSampleA, Except.ok dfSampleA⟩]).2.2
      ⟨⟨"a.csv", Except.ok dfSampleA, Except.ok dfSampleA⟩, ?_, rfl⟩⟩
  · exact fun h => List.cons_ne_nil _ _ h
  · intro f hf
    have hfe : f = ⟨"a.csv", Except.error ReadErr.other, Except.error ReadErr.other⟩ :=
      List.mem_singleton.mp hf
    rw [hfe]
    rfl
  · exact List.mem_filter.mpr ⟨List.mem_singleton.mpr rfl, rfl⟩

/-- C6: a decode failure on the primary encoding is retried exactly once
with the fallback encoding; a file that still fails (or fails with any
other per-file error) is skipped non-fatally, so a bad file never aborts
the load while at least one CSV file succeeds. -/
theorem per_file_error_spec (f g : CsvFile) (files : List CsvFile) (df : Df) :
    (f.utf8 = Except.error ReadErr.decode → f.gbk = Except.ok df →
      loadFile f = some (cleanDf df)) ∧
    (∀ e : ReadErr, f.utf8 = Except.error ReadErr.decode → f.gbk = Except.error e →
      loadFile f = Option.none) ∧
    (f.utf8 = Except.error ReadErr.other → loadFile f = Option.none) ∧
    (g ∈ files → isCsvName g.name = true → (loadFile g).isSome →
      ∃ d, init_database files = Except.ok d) := by
  refine ⟨?_, ?_, ?_, fun hg hcsv hs => init_database_ok_of_some_load hg hcsv hs⟩
  · intro h1 h2
    simp [loadFile, h1, h2]
  · intro e h1 h2
    simp [loadFile, h1, h2]
  · intro h1
    simp [loadFile, h1]

theorem per_file_error_spec_witness :
    loadFile ⟨"b.csv", Except.error ReadErr.decode, Except.ok dfSampleA⟩ =
      some (cleanDf dfSampleA) ∧
    loadFile ⟨"c.csv", Except.error ReadErr.decode, Except.error ReadErr.decode⟩ =
      Option.none ∧
    (∃ d, init_database
        [⟨"c.csv", Except.error ReadErr.decode, Except.error ReadErr.decode⟩,
         ⟨"b.csv", Except.error ReadErr.decode, Except.ok dfSampleA⟩] =
      Except.ok d) := by
  have h := per_file_error_spec
    ⟨"b.csv", Except.error ReadErr.decode, Except.ok dfSampleA⟩
    ⟨"b.csv", Except.error ReadErr.decode, Except.ok dfSampleA⟩
    [⟨"c.csv", Except.error ReadErr.decode, Except.error ReadErr.decode⟩,
     ⟨"b.csv", Except.error ReadErr.decode, Except.ok dfSampleA⟩] dfSampleA
  have h2 := per_file_error_spec
    ⟨"c.csv", Except.error ReadErr.decode, Except.error ReadErr.decode⟩
    ⟨"c.csv", Except.error ReadErr.decode, Except.error ReadErr.decode⟩ [] dfSampleA
  refine ⟨h.1 rfl rfl, h2.2.1 ReadErr.decode rfl rfl, h.2.2.2 (by simp) rfl ?_⟩
  rfl

theorem cleanDf_rows_length (d : Df) : (cleanDf d).rows.length = d.rows.length := by
  by_cases h1 : "价格" ∈ d.cols <;>
    by_cases h2 : "地址" ∈ d.cols <;>
      simp [cleanDf, h1, h2]

/-- C7: concatenation preserves the order of appearance of rows across
files, and for two same-schema files that both load, the combined
dataset is exactly the cleaned rows of the first file followed by the
cleaned rows of the second, with record count the sum of the two files'
row counts. -/
theorem concat_rows_spec (f g : CsvFile) (d1 d2 : Df)
    (hf : isCsvName f.name = true) (hg : isCsvName g.name = true)
    (h1 : f.utf8 = Except.ok d1) (h2 : g.utf8 = Except.ok d2)
    (_hschema : d1.cols = d2.cols) :
    init_database [f, g] = Except.ok (pdConcat [cleanDf d1, cleanDf d2]) ∧
    (pdConcat [cleanDf d1, cleanDf d2]).rows = (cleanDf d1).rows ++ (cleanDf d2).rows ∧
    (pdConcat [cleanDf d1, cleanDf d2]).rows.length = d1.rows.length + d2.rows.length := by
  have hl1 : loadFile f = some (cleanDf d1) := by simp [loadFile, h1]
  have hl2 : loadFile g = some (cleanDf d2) := by simp [loadFile, h2]
  refine ⟨?_, by simp [pdConcat], ?_⟩
  · have hfilter : ([f, g].filter fun x => isCsvName x.name) = [f, g] := by
      simp [List.filter, hf, hg]
    simp [init_database, hfilter, List.filterMap_cons, hl1, hl2]
  · simp [pdConcat, cleanDf_rows_length]

theorem concat_rows_spec_witness :
    init_database
        [⟨"a.csv", Except.ok dfSampleA, Except.ok dfSampleA⟩,
         ⟨"b.csv", Except.ok dfSampleB, Except.ok dfSampleB⟩] =
      Except.ok (pdConcat [cleanDf dfSampleA, cleanDf dfSampleB]) ∧
    (pdConcat [cleanDf dfSampleA, cleanDf dfSampleB]).rows.length = 3 := by
  have h := concat_rows_spec
    ⟨"a.csv", Except.ok dfSampleA, Except.ok dfSampleA⟩
    ⟨"b.csv", Except.ok dfSampleB, Except.ok dfSampleB⟩
    dfSampleA dfSampleB rfl rfl rfl rfl rfl
  exact ⟨h.1, h.2.2.trans rfl⟩

end MagicBox
